import Mathlib

/-!
# KogitoApp controller: reconciliation loop and default build limits

Shallow embedding of `pkg/controller/kogitoapp/kogitoapp_controller.go`:

* `setDefaultBuildLimits` (lines 196-222), the default-limits policy;
* `Reconcile` (lines 132-194), the reconciliation entry point.

Go values are embedded as follows.  An `error` is `Option Error` (`nil` is
`none`).  A `*v1alpha1.KogitoApp` that a collaborator receives is passed by
value and handed back by the collaborator, so that writes through the pointer
are visible to the caller.  The cluster behind the client is an explicit state
`σ` threaded through every collaborator call.  Logging is left out.
-/

set_option autoImplicit false

namespace Kogito

/-! ## Data model (package `v1alpha1`) -/

/-- Go `error` values; the nil error is `none : Option Error`. -/
abbrev Error := String

/-- Go `type ResourceKind string`. -/
abbrev ResourceKind := String

/-- Modelled from the spec: the constant `v1alpha1.ResourceCPU` is declared in another
file of the repository; the spec names the kind CPU.  Only its being different from
`ResourceMemory` is used. -/
def ResourceCPU : ResourceKind := "cpu"

/-- Modelled from the spec: the constant `v1alpha1.ResourceMemory` is declared in another
file of the repository; the spec names the kind Memory. -/
def ResourceMemory : ResourceKind := "memory"

/-- Go `v1alpha1.ResourceMap`: a (resource-kind, quantity) pair. -/
structure ResourceMap where
  Resource : ResourceKind
  Value : String
deriving DecidableEq

/-- Go `v1alpha1.Resources`; the controller reads and writes `Limits`. -/
structure Resources where
  Limits : List ResourceMap
deriving DecidableEq

/-- Go `type RuntimeType string`. -/
abbrev RuntimeType := String

/-- Modelled from the spec: the constant `v1alpha1.QuarkusRuntimeType` is declared in
another file of the repository; the spec calls it the primary supported kind. -/
def QuarkusRuntimeType : RuntimeType := "quarkus"

/-- Modelled from the spec: the constant `v1alpha1.SpringbootRuntimeType` is declared
in another file of the repository; the spec calls it the alternate supported kind. -/
def SpringbootRuntimeType : RuntimeType := "springboot"

/-- The build descriptor `instance.Spec.Build`. -/
structure KogitoAppBuildObject where
  Native : Bool
  Resources : Resources
deriving DecidableEq

/-- The `instance.Spec` part of the custom resource. -/
structure KogitoAppSpec where
  Runtime : RuntimeType
  Build : KogitoAppBuildObject
deriving DecidableEq

/-- The custom resource `v1alpha1.KogitoApp`: identity, spec and a status that the
controller only passes through. -/
structure KogitoApp where
  Name : String
  Namespace : String
  Spec : KogitoAppSpec
  Status : String
deriving DecidableEq

/-- The zero value `v1alpha1.KogitoApp{}` allocated at line 136. -/
def KogitoApp.zero : KogitoApp :=
  { Name := "", Namespace := "",
    Spec := { Runtime := "", Build := { Native := false, Resources := { Limits := [] } } },
    Status := "" }

/-! ## Default-limits policy -/

/-- The six package-level variables of package `kogitores` that
`setDefaultBuildLimits` reads.  They are declared in another file of the repository
and are therefore parameters of the embedding. -/
structure BuildDefaults where
  DefaultBuildS2INativeLimits : List ResourceMap
  DefaultBuildS2IJVMLimits : List ResourceMap
  DefaultBuildS2INativeCPULimit : ResourceMap
  DefaultBuildS2IJVMCPULimit : ResourceMap
  DefaultBuildS2INativeMemoryLimit : ResourceMap
  DefaultBuildS2IJVMMemoryLimit : ResourceMap
deriving DecidableEq

/-- Modelled from the spec: `shared.ContainsResource` is declared in another file of the
repository; the spec says a kind is "already present (by kind)" when some entry of the
list has that resource kind. -/
def ContainsResource (resource : ResourceKind) (resources : List ResourceMap) : Bool :=
  resources.any (fun res => res.Resource == resource)

/-- The test `&instance.Spec.Build.Resources == nil` of line 197: the address of a
struct field is never nil, so the test is always false. -/
def addrIsNil (_ : Resources) : Bool := false

/-- Lines 196-222.  The Go parameter `instance` is written `inst`; the value returned is
the instance as the method leaves it behind the pointer. -/
def setDefaultBuildLimits (d : BuildDefaults) (inst : KogitoApp) : KogitoApp :=
  let inst : KogitoApp :=
    if addrIsNil inst.Spec.Build.Resources then
      { inst with Spec.Build.Resources := { Limits := [] } }
    else inst
  if inst.Spec.Build.Resources.Limits.length = 0 then
    if inst.Spec.Build.Native then
      { inst with Spec.Build.Resources.Limits := d.DefaultBuildS2INativeLimits }
    else
      { inst with Spec.Build.Resources.Limits := d.DefaultBuildS2IJVMLimits }
  else
    let inst : KogitoApp :=
      if !ContainsResource ResourceCPU inst.Spec.Build.Resources.Limits then
        if inst.Spec.Build.Native then
          { inst with Spec.Build.Resources.Limits :=
              inst.Spec.Build.Resources.Limits ++ [d.DefaultBuildS2INativeCPULimit] }
        else
          { inst with Spec.Build.Resources.Limits :=
              inst.Spec.Build.Resources.Limits ++ [d.DefaultBuildS2IJVMCPULimit] }
      else inst
    if !ContainsResource ResourceMemory inst.Spec.Build.Resources.Limits then
      if inst.Spec.Build.Native then
        { inst with Spec.Build.Resources.Limits :=
            inst.Spec.Build.Resources.Limits ++ [d.DefaultBuildS2INativeMemoryLimit] }
      else
        { inst with Spec.Build.Resources.Limits :=
            inst.Spec.Build.Resources.Limits ++ [d.DefaultBuildS2IJVMMemoryLimit] }
    else inst

/-! ## Reconciliation loop -/

/-- Go `types.NamespacedName`, the key of a reconcile request. -/
structure NamespacedName where
  Namespace : String
  Name : String
deriving DecidableEq

/-- Go `reconcile.Request`. -/
structure Request where
  NamespacedName : NamespacedName
deriving DecidableEq

/-- Go `time.Duration`, a count of nanoseconds. -/
abbrev Duration := Int

/-- Go `time.Second`. -/
def Second : Duration := 1000000000

/-- Go `reconcile.Result`; `Result.empty` below is the literal `reconcile.Result{}`. -/
structure Result where
  Requeue : Bool
  RequeueAfter : Duration
deriving DecidableEq

/-- The zero value `reconcile.Result{}`. -/
def Result.empty : Result := { Requeue := false, RequeueAfter := 0 }

/-- The build configuration object; the controller reads its `Name`. -/
structure BuildConfig where
  Name : String
deriving DecidableEq

/-- Provenance of one dependent object. -/
structure KogitoAppResourcesStatus where
  IsNew : Bool
deriving DecidableEq

/-- Go `kogitores.KogitoAppResources`, the synchronized resource set, with the two
members `Reconcile` reads. -/
structure KogitoAppResources where
  BuildConfigS2IStatus : KogitoAppResourcesStatus
  BuildConfigS2I : BuildConfig
deriving DecidableEq

/-- Go `kogitores.UpdateResourcesResult`; `Reconcile` only hands it on. -/
structure UpdateResourcesResult where
  Payload : String
deriving DecidableEq

/-- Go `status.UpdateResult`, the directive of the status manager, with the three
fields `Reconcile` reads. -/
structure UpdateResult where
  Updated : Bool
  RequeueAfter : Bool
  Err : Option Error
deriving DecidableEq

/-- A dependent object handed to the pre-create hook (`meta.ResourceObject`). -/
structure ResourceObject where
  Name : String
  Kind : String
deriving DecidableEq

/-- Go `kogitores.Context` as built at lines 151-163: the instance and the pre-create
hook (`Option ResourceObject` because the hook tests `object != nil`). -/
structure Context where
  KogitoApp : KogitoApp
  PreCreate : Option ResourceObject → Option Error

/-- One collaborator call made by `Reconcile`, with its arguments and what it
returned (`fetched`, `left`: the instance as the call leaves it behind the pointer).
The record is instrumentation of the embedding: `Reconcile` appends one entry per
call, in program order. -/
inductive Call where
  | FetchWithKey (key : NamespacedName) (found : Bool) (err : Option Error) (fetched : KogitoApp)
  | BuildOrFetchObjects (app : KogitoApp) (resources : KogitoAppResources) (err : Option Error)
      (left : KogitoApp)
  | TriggerBuild (bc : BuildConfig) (name : String) (err : Option Error)
  | ManageResources (app : KogitoApp) (resources : KogitoAppResources)
      (updated : Option UpdateResourcesResult)
  | ManageStatus (app : KogitoApp) (resources : KogitoAppResources)
      (updated : Option UpdateResourcesResult) (key : NamespacedName) (directive : UpdateResult)
deriving DecidableEq

/-- Whether a recorded call is a call of the build trigger. -/
def Call.isTriggerBuild : Call → Bool
  | Call.TriggerBuild _ _ _ => true
  | _ => false

/-- The receiver `ReconcileKogitoApp` together with the collaborators it reaches
through its client, scheme and cache.  Every collaborator is declared in another
package and is a parameter; `σ` is the state of the cluster.
A collaborator that takes the instance pointer returns the instance as it leaves it. -/
structure ReconcileKogitoApp (σ : Type) where
  defaults : BuildDefaults
  FetchWithKey : NamespacedName → KogitoApp → σ → (Bool × Option Error × KogitoApp) × σ
  SetControllerReference : KogitoApp → ResourceObject → Option Error
  BuildOrFetchObjects : Context → σ → (KogitoAppResources × Option Error × KogitoApp) × σ
  TriggerBuild : BuildConfig → String → σ → Option Error × σ
  ManageResources : KogitoApp → KogitoAppResources → σ →
    (Option UpdateResourcesResult × KogitoApp) × σ
  ManageStatus : KogitoApp → KogitoAppResources → Option UpdateResourcesResult →
    NamespacedName → σ → UpdateResult × σ

/-- What one invocation of `Reconcile` leaves behind: the two returned values, the
collaborator calls it made and the cluster state. -/
structure Outcome (σ : Type) where
  result : Result
  err : Option Error
  calls : List Call
  world : σ

/-- Lines 143-145, the runtime defaulting step of `Reconcile`. -/
def normalizeRuntime (inst : KogitoApp) : KogitoApp :=
  if inst.Spec.Runtime ≠ SpringbootRuntimeType then
    { inst with Spec.Runtime := QuarkusRuntimeType }
  else inst

/-- Lines 151-163: the `kogitores.Context` literal handed to `BuildOrFetchObjects`, with
the instance and the pre-create hook closed over it. -/
def Reconcile.context {σ : Type} (r : ReconcileKogitoApp σ) (inst : KogitoApp) : Context :=
  { KogitoApp := inst
    PreCreate := fun object =>
      match object with
      | some o => r.SetControllerReference inst o
      | none => none }

/-- Lines 175-193: resource and status reconciliation and the mapping of the status
directive to the returned pair.  `err` is the variable `err` of `Reconcile` declared
at line 151 (the one assigned by `BuildOrFetchObjects`): line 184 returns it. -/
def Reconcile.manage {σ : Type} (r : ReconcileKogitoApp σ) (request : Request)
    (inst : KogitoApp) (kogitoResources : KogitoAppResources) (err : Option Error)
    (calls : List Call) (w : σ) : Outcome σ :=
  match r.ManageResources inst kogitoResources w with
  | ((resourcesUpdateResult, inst1), w1) =>
    match r.ManageStatus inst1 kogitoResources resourcesUpdateResult request.NamespacedName w1 with
    | (statusUpdateResult, w2) =>
      let calls2 := calls ++
        [Call.ManageResources inst kogitoResources resourcesUpdateResult,
         Call.ManageStatus inst1 kogitoResources resourcesUpdateResult request.NamespacedName
           statusUpdateResult]
      if statusUpdateResult.Err ≠ none then
        { result := Result.empty, err := err, calls := calls2, world := w2 }
      else if statusUpdateResult.RequeueAfter then
        { result := { Requeue := false, RequeueAfter := 30 * Second }, err := none,
          calls := calls2, world := w2 }
      else if statusUpdateResult.Updated then
        { result := { Requeue := true, RequeueAfter := 0 }, err := none,
          calls := calls2, world := w2 }
      else
        { result := Result.empty, err := none, calls := calls2, world := w2 }

/-- Lines 132-194.  The Go variable `instance` is written `inst`.  The `err` of the
fetch (line 137) and the `err` of the trigger (line 170) are scoped to their `if`
statements and are written `ferr` and `terr`; `err` is the variable of line 151.
`time.Duration(30) * time.Second` is 3 * 10^10 nanoseconds, within `int64`. -/
def Reconcile {σ : Type} (r : ReconcileKogitoApp σ) (request : Request) (w : σ) : Outcome σ :=
  match r.FetchWithKey request.NamespacedName KogitoApp.zero w with
  | ((found, ferr, inst), w1) =>
    let calls1 := [Call.FetchWithKey request.NamespacedName found ferr inst]
    if ferr ≠ none then
      { result := Result.empty, err := ferr, calls := calls1, world := w1 }
    else if !found then
      { result := Result.empty, err := none, calls := calls1, world := w1 }
    else
      let inst := normalizeRuntime inst
      let inst := setDefaultBuildLimits r.defaults inst
      match r.BuildOrFetchObjects (Reconcile.context r inst) w1 with
      | ((kogitoResources, err, inst2), w2) =>
        let calls2 := calls1 ++ [Call.BuildOrFetchObjects inst kogitoResources err inst2]
        if err ≠ none then
          { result := Result.empty, err := err, calls := calls2, world := w2 }
        else if kogitoResources.BuildConfigS2IStatus.IsNew then
          match r.TriggerBuild kogitoResources.BuildConfigS2I inst2.Name w2 with
          | (terr, w3) =>
            let calls3 := calls2 ++
              [Call.TriggerBuild kogitoResources.BuildConfigS2I inst2.Name terr]
            if terr ≠ none then
              { result := Result.empty, err := terr, calls := calls3, world := w3 }
            else
              Reconcile.manage r request inst2 kogitoResources err calls3 w3
        else
          Reconcile.manage r request inst2 kogitoResources err calls2 w2

/-! ## Vocabulary of the statements -/

/-- The full default set selected by the native flag. -/
def selectedLimits (d : BuildDefaults) (native : Bool) : List ResourceMap :=
  if native then d.DefaultBuildS2INativeLimits else d.DefaultBuildS2IJVMLimits

/-- The single default CPU entry selected by the native flag. -/
def selectedCPULimit (d : BuildDefaults) (native : Bool) : ResourceMap :=
  if native then d.DefaultBuildS2INativeCPULimit else d.DefaultBuildS2IJVMCPULimit

/-- The single default Memory entry selected by the native flag. -/
def selectedMemoryLimit (d : BuildDefaults) (native : Bool) : ResourceMap :=
  if native then d.DefaultBuildS2INativeMemoryLimit else d.DefaultBuildS2IJVMMemoryLimit

/-- Number of entries of a limits list that have the given resource kind. -/
def countKind (k : ResourceKind) (l : List ResourceMap) : Nat :=
  l.countP (fun e => e.Resource == k)

/-- The data-model invariant of a limits list: at most one entry per resource kind. -/
def UniquePerKind (l : List ResourceMap) : Prop :=
  (l.map (fun e => e.Resource)).Nodup

instance (l : List ResourceMap) : Decidable (UniquePerKind l) := by
  unfold UniquePerKind; infer_instance

/-- The instance with its limits list replaced and every other field kept. -/
def withLimits (inst : KogitoApp) (l : List ResourceMap) : KogitoApp :=
  { inst with Spec.Build.Resources.Limits := l }

/-- The limits list `setDefaultBuildLimits` leaves behind, as a function of the
native flag and the list it finds (used to organise the proofs). -/
def limitsAfter (d : BuildDefaults) (native : Bool) (l : List ResourceMap) : List ResourceMap :=
  if l = [] then selectedLimits d native
  else
    let l1 := if ContainsResource ResourceCPU l then l else l ++ [selectedCPULimit d native]
    if ContainsResource ResourceMemory l1 then l1 else l1 ++ [selectedMemoryLimit d native]

/-- The directive the status manager returns inside `Reconcile.manage`. -/
def manageDirective {σ : Type} (r : ReconcileKogitoApp σ) (request : Request)
    (inst : KogitoApp) (kogitoResources : KogitoAppResources) (w : σ) : UpdateResult :=
  (r.ManageStatus (r.ManageResources inst kogitoResources w).1.2 kogitoResources
    (r.ManageResources inst kogitoResources w).1.1 request.NamespacedName
    (r.ManageResources inst kogitoResources w).2).1

/-- The two entries `Reconcile.manage` appends to the record of calls. -/
def manageCalls {σ : Type} (r : ReconcileKogitoApp σ) (request : Request)
    (inst : KogitoApp) (kogitoResources : KogitoAppResources) (w : σ) : List Call :=
  [Call.ManageResources inst kogitoResources (r.ManageResources inst kogitoResources w).1.1,
   Call.ManageStatus (r.ManageResources inst kogitoResources w).1.2 kogitoResources
     (r.ManageResources inst kogitoResources w).1.1 request.NamespacedName
     (manageDirective r request inst kogitoResources w)]

/-! ## Sample data -/

/-- A sample of the default limits: one CPU and one Memory entry per build flavour. -/
def sampleDefaults : BuildDefaults :=
  { DefaultBuildS2INativeLimits :=
      [{ Resource := ResourceCPU, Value := "1" }, { Resource := ResourceMemory, Value := "4Gi" }]
    DefaultBuildS2IJVMLimits :=
      [{ Resource := ResourceCPU, Value := "1" }, { Resource := ResourceMemory, Value := "1Gi" }]
    DefaultBuildS2INativeCPULimit := { Resource := ResourceCPU, Value := "1" }
    DefaultBuildS2IJVMCPULimit := { Resource := ResourceCPU, Value := "1" }
    DefaultBuildS2INativeMemoryLimit := { Resource := ResourceMemory, Value := "4Gi" }
    DefaultBuildS2IJVMMemoryLimit := { Resource := ResourceMemory, Value := "1Gi" } }

/-- A sample instance with the given build flavour and limits list. -/
def sampleApp (native : Bool) (l : List ResourceMap) : KogitoApp :=
  { Name := "example", Namespace := "test",
    Spec := { Runtime := "", Build := { Native := native, Resources := { Limits := l } } },
    Status := "" }

/-- A sample request. -/
def sampleRequest : Request :=
  { NamespacedName := { Namespace := "test", Name := "example" } }

/-- A sample reconciler over a cluster state that counts the calls it served.  The
fetch answers `found` and `ferr` and fills in a JVM instance without limits named after
the key; the synchronizer answers `serr` and a build configuration that is new
according to `isNew`; the build trigger answers `terr`; the status manager answers
`sr`. -/
def sampleReconciler (found : Bool) (ferr serr terr : Option Error) (isNew : Bool)
    (sr : UpdateResult) : ReconcileKogitoApp Nat :=
  { defaults := sampleDefaults
    FetchWithKey := fun key _ w =>
      ((found, ferr, { sampleApp false [] with Name := key.Name, Namespace := key.Namespace }),
        w + 1)
    SetControllerReference := fun _ _ => none
    BuildOrFetchObjects := fun ctx w =>
      (({ BuildConfigS2IStatus := { IsNew := isNew },
          BuildConfigS2I := { Name := ctx.KogitoApp.Name ++ "-builder" } },
        serr, ctx.KogitoApp), w + 1)
    TriggerBuild := fun _ _ w => (terr, w + 1)
    ManageResources := fun inst _ w => ((none, inst), w + 1)
    ManageStatus := fun _ _ _ _ w => (sr, w + 1) }

/-- The instance the sample reconciler hands to the synchronizer for `sampleRequest`. -/
def sampleSynced : KogitoApp :=
  { Name := "example", Namespace := "test",
    Spec := { Runtime := QuarkusRuntimeType,
              Build := { Native := false,
                         Resources := { Limits := sampleDefaults.DefaultBuildS2IJVMLimits } } },
    Status := "" }

/-- The synchronized resource set of the sample reconciler. -/
def sampleResources (isNew : Bool) : KogitoAppResources :=
  { BuildConfigS2IStatus := { IsNew := isNew }, BuildConfigS2I := { Name := "example-builder" } }

/-- A directive of the status manager that carries an error and both requeue flags. -/
def failedDirective : UpdateResult :=
  { Updated := true, RequeueAfter := true, Err := some "status update failed" }

/-- A reconciler whose cluster state is the list of the requests its collaborators
served, each with what the collaborator received.  The fetch finds a JVM instance
without limits, named after the key, with the given runtime kind; the synchronizer
answers `serr` and a build configuration that is new according to `isNew`; the build
trigger answers `terr`; the status manager answers `sr`. -/
def loggingReconciler (runtime : RuntimeType) (serr terr : Option Error) (isNew : Bool)
    (sr : UpdateResult) : ReconcileKogitoApp (List String) :=
  { defaults := sampleDefaults
    FetchWithKey := fun key _ w =>
      ((true, none,
        { Name := key.Name, Namespace := key.Namespace,
          Spec := { Runtime := runtime,
                    Build := { Native := false, Resources := { Limits := [] } } },
          Status := "" }),
        w ++ ["fetch " ++ key.Name])
    SetControllerReference := fun _ _ => none
    BuildOrFetchObjects := fun ctx w =>
      (({ BuildConfigS2IStatus := { IsNew := isNew },
          BuildConfigS2I := { Name := ctx.KogitoApp.Name ++ "-builder" } },
        serr, ctx.KogitoApp),
        w ++ ["synchronize runtime=" ++ ctx.KogitoApp.Spec.Runtime])
    TriggerBuild := fun bc name w => (terr, w ++ ["trigger " ++ bc.Name ++ " for " ++ name])
    ManageResources := fun inst _ w => ((none, inst), w ++ ["resources"])
    ManageStatus := fun _ _ _ _ w => (sr, w ++ ["status"]) }

/-- The instance the logging reconciler fetches for `sampleRequest`. -/
def loggedFetched (runtime : RuntimeType) : KogitoApp :=
  { Name := "example", Namespace := "test",
    Spec := { Runtime := runtime,
              Build := { Native := false, Resources := { Limits := [] } } },
    Status := "" }

/-- A directive of the status manager that asks for nothing. -/
def doneDirective : UpdateResult :=
  { Updated := false, RequeueAfter := false, Err := none }

/-! ## Lemmas -/

theorem ResourceCPU_ne_ResourceMemory : ResourceCPU ≠ ResourceMemory := by decide

theorem ContainsResource_append (k : ResourceKind) (l : List ResourceMap) (e : ResourceMap) :
    ContainsResource k (l ++ [e]) = (ContainsResource k l || (e.Resource == k)) := by
  simp [ContainsResource, List.any_append]

theorem ContainsResource_append_list (k : ResourceKind) (l l2 : List ResourceMap) :
    ContainsResource k (l ++ l2) = (ContainsResource k l || ContainsResource k l2) := by
  simp [ContainsResource]

theorem ContainsResource_cons (k : ResourceKind) (e : ResourceMap) (l : List ResourceMap) :
    ContainsResource k (e :: l) = ((e.Resource == k) || ContainsResource k l) := by
  simp [ContainsResource]

theorem ContainsResource_nil (k : ResourceKind) : ContainsResource k [] = false := rfl

theorem ContainsResource_iff (k : ResourceKind) (l : List ResourceMap) :
    ContainsResource k l = true ↔ ∃ e ∈ l, e.Resource = k := by
  simp [ContainsResource]

theorem setDefaultBuildLimits_eq (d : BuildDefaults) (inst : KogitoApp) :
    setDefaultBuildLimits d inst =
      withLimits inst (limitsAfter d inst.Spec.Build.Native inst.Spec.Build.Resources.Limits) := by
  obtain ⟨name, ns, ⟨rt, ⟨native, ⟨l⟩⟩⟩, st⟩ := inst
  cases native <;> cases l <;>
    simp [setDefaultBuildLimits, addrIsNil, withLimits, limitsAfter, selectedLimits,
      selectedCPULimit, selectedMemoryLimit] <;>
    split_ifs <;> simp_all

theorem limitsAfter_of_ne_nil (d : BuildDefaults) (native : Bool) (l : List ResourceMap)
    (hne : l ≠ []) (hcpu : (selectedCPULimit d native).Resource ≠ ResourceMemory) :
    limitsAfter d native l =
      l ++ (if ContainsResource ResourceCPU l then [] else [selectedCPULimit d native])
        ++ (if ContainsResource ResourceMemory l then [] else [selectedMemoryLimit d native]) := by
  have hb : ((selectedCPULimit d native).Resource == ResourceMemory) = false := by
    simpa using hcpu
  unfold limitsAfter
  rw [if_neg hne]
  by_cases hc : ContainsResource ResourceCPU l = true
  · simp only [hc, if_true, List.append_nil]
    split_ifs <;> simp
  · simp only [hc, Bool.false_eq_true, if_false, ContainsResource_append, hb, Bool.or_false]
    by_cases hm : ContainsResource ResourceMemory l = true <;> simp [hm]

theorem countKind_eq_count (k : ResourceKind) (l : List ResourceMap) :
    countKind k l = (l.map (fun e => e.Resource)).count k := by
  induction l with
  | nil => rfl
  | cons a t ih =>
    simp only [countKind, List.map_cons, List.count_cons, List.countP_cons] at ih ⊢
    rw [ih]

theorem countKind_append_singleton (k : ResourceKind) (l : List ResourceMap) (e : ResourceMap) :
    countKind k (l ++ [e]) = countKind k l + (if e.Resource = k then 1 else 0) := by
  simp [countKind, List.countP_append, List.countP_cons]

theorem countKind_of_not_contains (k : ResourceKind) (l : List ResourceMap)
    (h : ContainsResource k l = false) : countKind k l = 0 := by
  rw [countKind_eq_count, List.count_eq_zero]
  intro hmem
  obtain ⟨e, he, hk⟩ := List.mem_map.1 hmem
  have : ContainsResource k l = true := (ContainsResource_iff k l).2 ⟨e, he, hk⟩
  rw [h] at this
  exact Bool.false_ne_true this

theorem countKind_of_contains (k : ResourceKind) (l : List ResourceMap)
    (hu : UniquePerKind l) (h : ContainsResource k l = true) : countKind k l = 1 := by
  rw [countKind_eq_count]
  obtain ⟨e, he, hk⟩ := (ContainsResource_iff k l).1 h
  exact List.count_eq_one_of_mem hu (List.mem_map.2 ⟨e, he, hk⟩)

theorem UniquePerKind_append_singleton (l : List ResourceMap) (e : ResourceMap)
    (hu : UniquePerKind l) (h : ContainsResource e.Resource l = false) :
    UniquePerKind (l ++ [e]) := by
  unfold UniquePerKind at hu ⊢
  rw [List.map_append, List.map_singleton]
  refine List.Nodup.append hu (List.nodup_singleton _) ?_
  rw [List.disjoint_singleton]
  intro hmem
  obtain ⟨x, hx, hk⟩ := List.mem_map.1 hmem
  have : ContainsResource e.Resource l = true := (ContainsResource_iff _ l).2 ⟨x, hx, hk⟩
  rw [h] at this
  exact Bool.false_ne_true this

theorem limitsAfter_fixed (d : BuildDefaults) (native : Bool) (l : List ResourceMap)
    (hne : l ≠ []) (hc : ContainsResource ResourceCPU l = true)
    (hm : ContainsResource ResourceMemory l = true) : limitsAfter d native l = l := by
  simp [limitsAfter, hne, hc, hm]

theorem nonempty_limits_shape (d : BuildDefaults) (inst : KogitoApp)
    (hne : inst.Spec.Build.Resources.Limits ≠ [])
    (hcpu : (selectedCPULimit d inst.Spec.Build.Native).Resource ≠ ResourceMemory) :
    setDefaultBuildLimits d inst =
      withLimits inst
        (inst.Spec.Build.Resources.Limits
          ++ (if ContainsResource ResourceCPU inst.Spec.Build.Resources.Limits then []
              else [selectedCPULimit d inst.Spec.Build.Native])
          ++ (if ContainsResource ResourceMemory inst.Spec.Build.Resources.Limits then []
              else [selectedMemoryLimit d inst.Spec.Build.Native])) := by
  rw [setDefaultBuildLimits_eq, limitsAfter_of_ne_nil d _ _ hne hcpu]

theorem limitsAfter_idem (d : BuildDefaults) (native : Bool) (l : List ResourceMap)
    (hfc : ContainsResource ResourceCPU (selectedLimits d native) = true)
    (hfm : ContainsResource ResourceMemory (selectedLimits d native) = true)
    (hc : (selectedCPULimit d native).Resource = ResourceCPU)
    (hm : (selectedMemoryLimit d native).Resource = ResourceMemory) :
    limitsAfter d native (limitsAfter d native l) = limitsAfter d native l := by
  by_cases hne : l = []
  · have hfne : selectedLimits d native ≠ [] := by
      intro h
      rw [h] at hfc
      simp [ContainsResource] at hfc
    simp only [limitsAfter, hne, if_true]
    simp [hfne, hfc, hfm]
  · have hcm : (selectedCPULimit d native).Resource ≠ ResourceMemory := by
      rw [hc]; exact ResourceCPU_ne_ResourceMemory
    rw [limitsAfter_of_ne_nil d native l hne hcm]
    apply limitsAfter_fixed
    · simp [hne]
    · cases hC : ContainsResource ResourceCPU l <;>
        cases hM : ContainsResource ResourceMemory l <;>
        simp [ContainsResource_append_list, ContainsResource_cons, ContainsResource_nil,
          hC, hM, hc, hm]
    · cases hC : ContainsResource ResourceCPU l <;>
        cases hM : ContainsResource ResourceMemory l <;>
        simp [ContainsResource_append_list, ContainsResource_cons, ContainsResource_nil,
          hC, hM, hc, hm]

theorem withLimits_Native (inst : KogitoApp) (l : List ResourceMap) :
    (withLimits inst l).Spec.Build.Native = inst.Spec.Build.Native := rfl

theorem withLimits_Limits (inst : KogitoApp) (l : List ResourceMap) :
    (withLimits inst l).Spec.Build.Resources.Limits = l := rfl

theorem withLimits_withLimits (inst : KogitoApp) (l l2 : List ResourceMap) :
    withLimits (withLimits inst l) l2 = withLimits inst l2 := rfl

/-! ## Default-limits policy: the claims -/

/-- C6: on a non-empty limits list `setDefaultBuildLimits` keeps the list as it is and
appends the flag-selected default CPU entry exactly when the list has no CPU entry,
then the flag-selected default Memory entry exactly when the list has no Memory
entry, and nothing else; every other field of the instance is kept.  The default CPU
entry is declared in another file; it is taken not to be of kind Memory. -/
theorem setDefaultBuildLimits_nonempty (d : BuildDefaults) (inst : KogitoApp)
    (hne : inst.Spec.Build.Resources.Limits ≠ [])
    (hcpu : (selectedCPULimit d inst.Spec.Build.Native).Resource ≠ ResourceMemory) :
    setDefaultBuildLimits d inst =
      withLimits inst
        (inst.Spec.Build.Resources.Limits
          ++ (if ContainsResource ResourceCPU inst.Spec.Build.Resources.Limits then []
              else [selectedCPULimit d inst.Spec.Build.Native])
          ++ (if ContainsResource ResourceMemory inst.Spec.Build.Resources.Limits then []
              else [selectedMemoryLimit d inst.Spec.Build.Native])) := by
  rw [setDefaultBuildLimits_eq, limitsAfter_of_ne_nil d _ _ hne hcpu]

/-- Witness of C6: a native build whose only limit is a Memory entry gets the native
default CPU entry appended and nothing else. -/
theorem setDefaultBuildLimits_nonempty_witness :
    setDefaultBuildLimits sampleDefaults
        (sampleApp true [{ Resource := ResourceMemory, Value := "2Gi" }]) =
      sampleApp true
        [{ Resource := ResourceMemory, Value := "2Gi" }, { Resource := ResourceCPU, Value := "1" }] :=
  (setDefaultBuildLimits_nonempty sampleDefaults
    (sampleApp true [{ Resource := ResourceMemory, Value := "2Gi" }])
    (by decide) (by decide)).trans (by decide)

/-- C7: on an empty limits list `setDefaultBuildLimits` sets the list to the full native
default set when the native flag is true and to the full JVM default set when it is
false, and changes no other field of the instance. -/
theorem setDefaultBuildLimits_empty (d : BuildDefaults) (inst : KogitoApp)
    (hnil : inst.Spec.Build.Resources.Limits = []) :
    (setDefaultBuildLimits d inst).Spec.Build.Resources.Limits =
        (if inst.Spec.Build.Native then d.DefaultBuildS2INativeLimits
         else d.DefaultBuildS2IJVMLimits) ∧
      (setDefaultBuildLimits d inst).Name = inst.Name ∧
      (setDefaultBuildLimits d inst).Namespace = inst.Namespace ∧
      (setDefaultBuildLimits d inst).Status = inst.Status ∧
      (setDefaultBuildLimits d inst).Spec.Runtime = inst.Spec.Runtime ∧
      (setDefaultBuildLimits d inst).Spec.Build.Native = inst.Spec.Build.Native ∧
      setDefaultBuildLimits d inst =
        withLimits inst (if inst.Spec.Build.Native then d.DefaultBuildS2INativeLimits
          else d.DefaultBuildS2IJVMLimits) := by
  rw [setDefaultBuildLimits_eq]
  simp [withLimits, limitsAfter, hnil, selectedLimits]

/-- Witness of C7: a JVM build without limits receives the full JVM default set. -/
theorem setDefaultBuildLimits_empty_witness :
    (setDefaultBuildLimits sampleDefaults (sampleApp false [])).Spec.Build.Resources.Limits =
      [{ Resource := ResourceCPU, Value := "1" }, { Resource := ResourceMemory, Value := "1Gi" }] :=
  (setDefaultBuildLimits_empty sampleDefaults (sampleApp false []) rfl).1

/-- C8: when the limits list has at most one entry per kind, and the flag-selected full
default set has exactly one CPU entry, exactly one Memory entry and at most one entry
per kind, and the flag-selected single default entries have the kinds their names say,
the list after `setDefaultBuildLimits` has exactly one CPU entry, exactly one Memory
entry, at most one entry per kind, and still contains every entry of another kind
that it had before. -/
theorem setDefaultBuildLimits_one_per_kind (d : BuildDefaults) (inst : KogitoApp)
    (hin : UniquePerKind inst.Spec.Build.Resources.Limits)
    (hfc : countKind ResourceCPU (selectedLimits d inst.Spec.Build.Native) = 1)
    (hfm : countKind ResourceMemory (selectedLimits d inst.Spec.Build.Native) = 1)
    (hfu : UniquePerKind (selectedLimits d inst.Spec.Build.Native))
    (hc : (selectedCPULimit d inst.Spec.Build.Native).Resource = ResourceCPU)
    (hm : (selectedMemoryLimit d inst.Spec.Build.Native).Resource = ResourceMemory) :
    countKind ResourceCPU (setDefaultBuildLimits d inst).Spec.Build.Resources.Limits = 1 ∧
      countKind ResourceMemory (setDefaultBuildLimits d inst).Spec.Build.Resources.Limits = 1 ∧
      UniquePerKind (setDefaultBuildLimits d inst).Spec.Build.Resources.Limits ∧
      ∀ e ∈ inst.Spec.Build.Resources.Limits,
        e.Resource ≠ ResourceCPU → e.Resource ≠ ResourceMemory →
          e ∈ (setDefaultBuildLimits d inst).Spec.Build.Resources.Limits := by
  by_cases hne : inst.Spec.Build.Resources.Limits = []
  · rw [setDefaultBuildLimits_eq]
    simp only [withLimits, limitsAfter, hne, if_true]
    exact ⟨hfc, hfm, hfu, by simp⟩
  · have hcm : (selectedCPULimit d inst.Spec.Build.Native).Resource ≠ ResourceMemory := by
      rw [hc]; exact ResourceCPU_ne_ResourceMemory
    have hmc : ¬ (ResourceMemory = ResourceCPU) := fun h => ResourceCPU_ne_ResourceMemory h.symm
    rw [nonempty_limits_shape d inst hne hcm]
    simp only [withLimits]
    generalize inst.Spec.Build.Resources.Limits = l at hin hne
    generalize inst.Spec.Build.Native = native at hc hm hcm
    cases hC : ContainsResource ResourceCPU l <;> cases hM : ContainsResource ResourceMemory l
    · have hM2 : ContainsResource (selectedMemoryLimit d native).Resource
          (l ++ [selectedCPULimit d native]) = false := by
        rw [hm, ContainsResource_append, hM]; simpa using hcm
      have hu1 := UniquePerKind_append_singleton l _ hin (by rw [hc]; exact hC)
      have hu2 := UniquePerKind_append_singleton _ _ hu1 hM2
      refine ⟨?_, ?_, by simpa using hu2, by intro e he _ _; simp [he]⟩
      · simp only [Bool.false_eq_true, if_false]
        rw [countKind_append_singleton, countKind_append_singleton,
          countKind_of_not_contains _ _ hC, hc, hm]
        simp [hmc]
      · simp only [Bool.false_eq_true, if_false]
        rw [countKind_append_singleton, countKind_append_singleton,
          countKind_of_not_contains _ _ hM, hc, hm]
        simp [ResourceCPU_ne_ResourceMemory]
    · have hu1 := UniquePerKind_append_singleton l _ hin (by rw [hc]; exact hC)
      refine ⟨?_, ?_, by simpa using hu1, by intro e he _ _; simp [he]⟩
      · simp [countKind_append_singleton, countKind_of_not_contains _ _ hC, hc]
      · simp [countKind_append_singleton, countKind_of_contains _ _ hin hM, hc,
          ResourceCPU_ne_ResourceMemory]
    · have hu1 := UniquePerKind_append_singleton l _ hin (by rw [hm]; exact hM)
      refine ⟨?_, ?_, by simpa using hu1, by intro e he _ _; simp [he]⟩
      · simp [countKind_append_singleton, countKind_of_contains _ _ hin hC, hm, hmc]
      · simp [countKind_append_singleton, countKind_of_not_contains _ _ hM, hm]
    · refine ⟨?_, ?_, by simpa using hin, by intro e he _ _; simpa using he⟩
      · simp [countKind_of_contains _ _ hin hC]
      · simp [countKind_of_contains _ _ hin hM]

/-- Witness of C8: a native build with a storage limit and a CPU limit ends with one
CPU entry, one Memory entry, no kind twice, and the storage entry still there. -/
theorem setDefaultBuildLimits_one_per_kind_witness :
    countKind ResourceCPU
        (setDefaultBuildLimits sampleDefaults
          (sampleApp true [{ Resource := "storage", Value := "5Gi" },
            { Resource := ResourceCPU, Value := "2" }])).Spec.Build.Resources.Limits = 1 ∧
      countKind ResourceMemory
        (setDefaultBuildLimits sampleDefaults
          (sampleApp true [{ Resource := "storage", Value := "5Gi" },
            { Resource := ResourceCPU, Value := "2" }])).Spec.Build.Resources.Limits = 1 ∧
      UniquePerKind
        (setDefaultBuildLimits sampleDefaults
          (sampleApp true [{ Resource := "storage", Value := "5Gi" },
            { Resource := ResourceCPU, Value := "2" }])).Spec.Build.Resources.Limits ∧
      ∀ e ∈ (sampleApp true [{ Resource := "storage", Value := "5Gi" },
            { Resource := ResourceCPU, Value := "2" }]).Spec.Build.Resources.Limits,
        e.Resource ≠ ResourceCPU → e.Resource ≠ ResourceMemory →
          e ∈ (setDefaultBuildLimits sampleDefaults
            (sampleApp true [{ Resource := "storage", Value := "5Gi" },
              { Resource := ResourceCPU, Value := "2" }])).Spec.Build.Resources.Limits :=
  setDefaultBuildLimits_one_per_kind sampleDefaults
    (sampleApp true [{ Resource := "storage", Value := "5Gi" },
      { Resource := ResourceCPU, Value := "2" }])
    (by decide) (by decide) (by decide) (by decide) (by decide) (by decide)

/-- C10: the in-memory defaulting steps are idempotent.  When the flag-selected full
default set is non-empty and contains a CPU and a Memory entry, and the flag-selected
single default entries have the kinds their names say, a second `setDefaultBuildLimits`
leaves the instance as the first one left it; and a second runtime normalization
leaves the instance as the first one left it. -/
theorem defaulting_idempotent :
    (∀ (d : BuildDefaults) (inst : KogitoApp),
        selectedLimits d inst.Spec.Build.Native ≠ [] →
        ContainsResource ResourceCPU (selectedLimits d inst.Spec.Build.Native) = true →
        ContainsResource ResourceMemory (selectedLimits d inst.Spec.Build.Native) = true →
        (selectedCPULimit d inst.Spec.Build.Native).Resource = ResourceCPU →
        (selectedMemoryLimit d inst.Spec.Build.Native).Resource = ResourceMemory →
        setDefaultBuildLimits d (setDefaultBuildLimits d inst) = setDefaultBuildLimits d inst) ∧
      ∀ inst : KogitoApp, normalizeRuntime (normalizeRuntime inst) = normalizeRuntime inst := by
  constructor
  · intro d inst _ hfc hfm hc hm
    rw [setDefaultBuildLimits_eq d inst, setDefaultBuildLimits_eq, withLimits_Native,
      withLimits_Limits, withLimits_withLimits, limitsAfter_idem d _ _ hfc hfm hc hm]
  · intro inst
    unfold normalizeRuntime
    split_ifs with h1 h2
    · rfl
    · rfl
    · rfl

/-- Witness of C10: defaulting a JVM build that only limits Memory, twice. -/
theorem defaulting_idempotent_witness :
    setDefaultBuildLimits sampleDefaults
        (setDefaultBuildLimits sampleDefaults
          (sampleApp false [{ Resource := ResourceMemory, Value := "2Gi" }])) =
      setDefaultBuildLimits sampleDefaults
        (sampleApp false [{ Resource := ResourceMemory, Value := "2Gi" }]) :=
  defaulting_idempotent.1 sampleDefaults
    (sampleApp false [{ Resource := ResourceMemory, Value := "2Gi" }])
    (by decide) (by decide) (by decide) (by decide) (by decide)

theorem setDefaultBuildLimits_Runtime (d : BuildDefaults) (inst : KogitoApp) :
    (setDefaultBuildLimits d inst).Spec.Runtime = inst.Spec.Runtime := by
  rw [setDefaultBuildLimits_eq]
  rfl

theorem QuarkusRuntimeType_ne_SpringbootRuntimeType :
    QuarkusRuntimeType ≠ SpringbootRuntimeType := by decide

theorem normalizeRuntime_Runtime (inst : KogitoApp) :
    ((normalizeRuntime inst).Spec.Runtime = SpringbootRuntimeType ↔
        inst.Spec.Runtime = SpringbootRuntimeType) ∧
      (inst.Spec.Runtime ≠ SpringbootRuntimeType →
        (normalizeRuntime inst).Spec.Runtime = QuarkusRuntimeType) := by
  unfold normalizeRuntime
  split_ifs with h
  · exact ⟨⟨fun h2 => absurd h2 QuarkusRuntimeType_ne_SpringbootRuntimeType,
      fun h2 => absurd h2 h⟩, fun _ => rfl⟩
  · exact ⟨Iff.rfl, fun h2 => absurd h2 h⟩

/-! ## Reconciliation loop: lemmas -/

theorem manage_calls {σ : Type} (r : ReconcileKogitoApp σ) (request : Request)
    (inst : KogitoApp) (res : KogitoAppResources) (err : Option Error) (calls : List Call)
    (w : σ) :
    (Reconcile.manage r request inst res err calls w).calls =
      calls ++ manageCalls r request inst res w := by
  unfold Reconcile.manage manageCalls manageDirective
  simp only []
  split_ifs <;> rfl

theorem manage_err {σ : Type} (r : ReconcileKogitoApp σ) (request : Request)
    (inst : KogitoApp) (res : KogitoAppResources) (err : Option Error) (calls : List Call)
    (w : σ) :
    (Reconcile.manage r request inst res err calls w).err =
      if (manageDirective r request inst res w).Err = none then none else err := by
  unfold Reconcile.manage manageDirective
  simp only []
  split_ifs <;> first | rfl | contradiction

theorem manage_result {σ : Type} (r : ReconcileKogitoApp σ) (request : Request)
    (inst : KogitoApp) (res : KogitoAppResources) (err : Option Error) (calls : List Call)
    (w : σ) :
    (Reconcile.manage r request inst res err calls w).result =
      if (manageDirective r request inst res w).Err = none then
        (if (manageDirective r request inst res w).RequeueAfter then
          { Requeue := false, RequeueAfter := 30 * 1000000000 }
         else if (manageDirective r request inst res w).Updated then
          { Requeue := true, RequeueAfter := 0 }
         else { Requeue := false, RequeueAfter := 0 })
      else Result.empty := by
  unfold Reconcile.manage manageDirective
  simp only []
  split_ifs <;> first | rfl | contradiction

theorem Reconcile_of_status_call {σ : Type} (r : ReconcileKogitoApp σ) (request : Request)
    (w : σ) (app : KogitoApp) (res : KogitoAppResources) (upd : Option UpdateResourcesResult)
    (key : NamespacedName) (sr : UpdateResult)
    (hcall : Call.ManageStatus app res upd key sr ∈ (Reconcile r request w).calls) :
    ∃ (inst2 : KogitoApp) (calls0 : List Call) (w0 : σ),
      Reconcile r request w = Reconcile.manage r request inst2 res none calls0 w0 ∧
        sr = manageDirective r request inst2 res w0 := by
  unfold Reconcile at hcall ⊢
  simp only [] at hcall ⊢
  split_ifs at hcall ⊢ with h1 h2 h3 h4 h5
  · simp at hcall
  · simp at hcall
  · simp at hcall
  · simp at hcall
  · simp only [manage_calls, manageCalls, List.mem_append, List.mem_cons, List.mem_singleton,
      List.not_mem_nil, Call.ManageStatus.injEq, reduceCtorEq, or_false, false_or] at hcall
    obtain ⟨_, hres, _, _, hsr⟩ := hcall
    rw [not_not.mp h3]
    exact ⟨_, _, _, by rw [hres], by rw [hsr, hres]⟩
  · simp only [manage_calls, manageCalls, List.mem_append, List.mem_cons, List.mem_singleton,
      List.not_mem_nil, Call.ManageStatus.injEq, reduceCtorEq, or_false, false_or] at hcall
    obtain ⟨_, hres, _, _, hsr⟩ := hcall
    rw [not_not.mp h3]
    exact ⟨_, _, _, by rw [hres], by rw [hsr, hres]⟩

theorem Reconcile_after_status {σ : Type} (r : ReconcileKogitoApp σ) (request : Request)
    (w : σ) (app : KogitoApp) (res : KogitoAppResources) (upd : Option UpdateResourcesResult)
    (key : NamespacedName) (sr : UpdateResult)
    (hcall : Call.ManageStatus app res upd key sr ∈ (Reconcile r request w).calls) :
    (Reconcile r request w).err = none ∧
      (Reconcile r request w).result =
        if sr.Err = none then
          (if sr.RequeueAfter then { Requeue := false, RequeueAfter := 30 * 1000000000 }
           else if sr.Updated then { Requeue := true, RequeueAfter := 0 }
           else { Requeue := false, RequeueAfter := 0 })
        else Result.empty := by
  obtain ⟨inst2, calls0, w0, hR, hsr⟩ := Reconcile_of_status_call r request w app res upd key sr hcall
  rw [hR, manage_err, manage_result, ← hsr]
  exact ⟨by split_ifs <;> rfl, rfl⟩

/-! ### The runs of `Reconcile`, from what the collaborators return -/

theorem run_fetch_error {σ : Type} (r : ReconcileKogitoApp σ) (request : Request) (w w1 : σ)
    (found : Bool) (e : Error) (fetched : KogitoApp)
    (hf : r.FetchWithKey request.NamespacedName KogitoApp.zero w =
      ((found, some e, fetched), w1)) :
    Reconcile r request w =
      { result := Result.empty, err := some e,
        calls := [Call.FetchWithKey request.NamespacedName found (some e) fetched],
        world := w1 } := by
  unfold Reconcile
  simp [hf]

theorem run_sync_error {σ : Type} (r : ReconcileKogitoApp σ) (request : Request) (w w1 w2 : σ)
    (e : Error) (fetched left : KogitoApp) (res : KogitoAppResources)
    (hf : r.FetchWithKey request.NamespacedName KogitoApp.zero w =
      ((true, none, fetched), w1))
    (hs : r.BuildOrFetchObjects
        (Reconcile.context r (setDefaultBuildLimits r.defaults (normalizeRuntime fetched))) w1 =
      ((res, some e, left), w2)) :
    Reconcile r request w =
      { result := Result.empty, err := some e,
        calls := [Call.FetchWithKey request.NamespacedName true none fetched,
          Call.BuildOrFetchObjects (setDefaultBuildLimits r.defaults (normalizeRuntime fetched))
            res (some e) left],
        world := w2 } := by
  unfold Reconcile
  simp [hf, hs]

theorem run_trigger_error {σ : Type} (r : ReconcileKogitoApp σ) (request : Request)
    (w w1 w2 w3 : σ) (e : Error) (fetched left : KogitoApp) (res : KogitoAppResources)
    (hf : r.FetchWithKey request.NamespacedName KogitoApp.zero w =
      ((true, none, fetched), w1))
    (hs : r.BuildOrFetchObjects
        (Reconcile.context r (setDefaultBuildLimits r.defaults (normalizeRuntime fetched))) w1 =
      ((res, none, left), w2))
    (hnew : res.BuildConfigS2IStatus.IsNew = true)
    (ht : r.TriggerBuild res.BuildConfigS2I left.Name w2 = (some e, w3)) :
    Reconcile r request w =
      { result := Result.empty, err := some e,
        calls := [Call.FetchWithKey request.NamespacedName true none fetched,
          Call.BuildOrFetchObjects (setDefaultBuildLimits r.defaults (normalizeRuntime fetched))
            res none left,
          Call.TriggerBuild res.BuildConfigS2I left.Name (some e)],
        world := w3 } := by
  unfold Reconcile
  simp [hf, hs, hnew, ht]

theorem run_triggered {σ : Type} (r : ReconcileKogitoApp σ) (request : Request)
    (w w1 w2 w3 : σ) (fetched left : KogitoApp) (res : KogitoAppResources)
    (hf : r.FetchWithKey request.NamespacedName KogitoApp.zero w =
      ((true, none, fetched), w1))
    (hs : r.BuildOrFetchObjects
        (Reconcile.context r (setDefaultBuildLimits r.defaults (normalizeRuntime fetched))) w1 =
      ((res, none, left), w2))
    (hnew : res.BuildConfigS2IStatus.IsNew = true)
    (ht : r.TriggerBuild res.BuildConfigS2I left.Name w2 = (none, w3)) :
    Reconcile r request w =
      Reconcile.manage r request left res none
        [Call.FetchWithKey request.NamespacedName true none fetched,
          Call.BuildOrFetchObjects (setDefaultBuildLimits r.defaults (normalizeRuntime fetched))
            res none left,
          Call.TriggerBuild res.BuildConfigS2I left.Name none] w3 := by
  unfold Reconcile
  simp [hf, hs, hnew, ht]

theorem run_untriggered {σ : Type} (r : ReconcileKogitoApp σ) (request : Request)
    (w w1 w2 : σ) (fetched left : KogitoApp) (res : KogitoAppResources)
    (hf : r.FetchWithKey request.NamespacedName KogitoApp.zero w =
      ((true, none, fetched), w1))
    (hs : r.BuildOrFetchObjects
        (Reconcile.context r (setDefaultBuildLimits r.defaults (normalizeRuntime fetched))) w1 =
      ((res, none, left), w2))
    (hnew : res.BuildConfigS2IStatus.IsNew = false) :
    Reconcile r request w =
      Reconcile.manage r request left res none
        [Call.FetchWithKey request.NamespacedName true none fetched,
          Call.BuildOrFetchObjects (setDefaultBuildLimits r.defaults (normalizeRuntime fetched))
            res none left] w2 := by
  unfold Reconcile
  simp [hf, hs, hnew]

theorem manage_run {σ : Type} (r : ReconcileKogitoApp σ) (request : Request)
    (inst app1 : KogitoApp) (res : KogitoAppResources) (err : Option Error)
    (calls : List Call) (w w4 w5 : σ) (upd : Option UpdateResourcesResult) (sr : UpdateResult)
    (hm : r.ManageResources inst res w = ((upd, app1), w4))
    (hst : r.ManageStatus app1 res upd request.NamespacedName w4 = (sr, w5)) :
    (Reconcile.manage r request inst res err calls w).calls =
        calls ++ [Call.ManageResources inst res upd,
          Call.ManageStatus app1 res upd request.NamespacedName sr] ∧
      (Reconcile.manage r request inst res err calls w).world = w5 := by
  unfold Reconcile.manage
  simp only [hm, hst]
  split_ifs <;> exact ⟨rfl, rfl⟩

/-! ## Reconciliation loop: the claims -/

/-- C2: when the status manager is reached and its directive carries no error, `Reconcile`
returns no error and a result chosen in this order: a delay of 30 seconds without the
requeue flag when `RequeueAfter` is set (also when `Updated` is set too), otherwise the
requeue flag alone when `Updated` is set, otherwise the empty result. -/
theorem Reconcile_directive_mapping {σ : Type} (r : ReconcileKogitoApp σ) (request : Request)
    (w : σ) (app : KogitoApp) (res : KogitoAppResources) (upd : Option UpdateResourcesResult)
    (key : NamespacedName) (sr : UpdateResult)
    (hcall : Call.ManageStatus app res upd key sr ∈ (Reconcile r request w).calls)
    (herr : sr.Err = none) :
    (Reconcile r request w).err = none ∧
      (Reconcile r request w).result =
        (if sr.RequeueAfter then { Requeue := false, RequeueAfter := 30 * Second }
         else if sr.Updated then { Requeue := true, RequeueAfter := 0 }
         else { Requeue := false, RequeueAfter := 0 }) := by
  have h := Reconcile_after_status r request w app res upd key sr hcall
  rw [if_pos herr] at h
  exact h

/-- Witness of C2: the status manager asks for a delayed requeue and sets `Updated` too;
the result is the 30 second delay alone. -/
theorem Reconcile_directive_mapping_witness :
    (Reconcile (sampleReconciler true none none none false
        { Updated := true, RequeueAfter := true, Err := none }) sampleRequest 0).err = none ∧
      (Reconcile (sampleReconciler true none none none false
        { Updated := true, RequeueAfter := true, Err := none }) sampleRequest 0).result =
        { Requeue := false, RequeueAfter := 30000000000 } :=
  Reconcile_directive_mapping
    (sampleReconciler true none none none false
      { Updated := true, RequeueAfter := true, Err := none })
    sampleRequest 0 sampleSynced (sampleResources false) none sampleRequest.NamespacedName
    { Updated := true, RequeueAfter := true, Err := none } (by decide) rfl

/-- C1 as the code behaves: when the status manager is reached and its directive carries
an error `e`, `Reconcile` returns the empty result and the nil error, not `e`: line 184
returns the variable `err` of the synchronizer call, which is nil at that point. -/
theorem Reconcile_status_error_dropped {σ : Type} (r : ReconcileKogitoApp σ)
    (request : Request) (w : σ) (app : KogitoApp) (res : KogitoAppResources)
    (upd : Option UpdateResourcesResult) (key : NamespacedName) (sr : UpdateResult) (e : Error)
    (hcall : Call.ManageStatus app res upd key sr ∈ (Reconcile r request w).calls)
    (herr : sr.Err = some e) :
    (Reconcile r request w).err = none ∧ (Reconcile r request w).err ≠ some e ∧
      (Reconcile r request w).result = Result.empty := by
  have h := Reconcile_after_status r request w app res upd key sr hcall
  rw [if_neg (by rw [herr]; exact Option.some_ne_none e)] at h
  exact ⟨h.1, by rw [h.1]; exact fun hne => Option.noConfusion hne, h.2⟩

/-- Witness of C1 as the code behaves: the instance is fetched, synchronization succeeds,
no build is triggered, and the status manager fails with "status update failed". -/
theorem Reconcile_status_error_dropped_witness :
    (Reconcile (sampleReconciler true none none none false failedDirective) sampleRequest 0).err
        = none ∧
      (Reconcile (sampleReconciler true none none none false failedDirective) sampleRequest 0).err
        ≠ some "status update failed" ∧
      (Reconcile (sampleReconciler true none none none false failedDirective)
        sampleRequest 0).result = Result.empty :=
  Reconcile_status_error_dropped (sampleReconciler true none none none false failedDirective)
    sampleRequest 0 sampleSynced (sampleResources false) none sampleRequest.NamespacedName
    failedDirective "status update failed" (by decide) rfl

/-- C3: when the fetch reports that the instance does not exist, without an error,
`Reconcile` returns the empty result and the nil error, and the fetch is the only
collaborator call it makes: no synchronization, no build trigger, no resource or status
reconciliation. -/
theorem Reconcile_not_found {σ : Type} (r : ReconcileKogitoApp σ) (request : Request)
    (w w1 : σ) (fetched : KogitoApp)
    (hf : r.FetchWithKey request.NamespacedName KogitoApp.zero w = ((false, none, fetched), w1)) :
    (Reconcile r request w).result = Result.empty ∧
      (Reconcile r request w).err = none ∧
      (Reconcile r request w).calls =
        [Call.FetchWithKey request.NamespacedName false none fetched] ∧
      (Reconcile r request w).world = w1 := by
  unfold Reconcile
  simp [hf]

/-- Witness of C3: the sample reconciler with a fetch that finds nothing. -/
theorem Reconcile_not_found_witness :
    (Reconcile (sampleReconciler false none none none true failedDirective)
        sampleRequest 0).result = Result.empty ∧
      (Reconcile (sampleReconciler false none none none true failedDirective)
        sampleRequest 0).err = none ∧
      (Reconcile (sampleReconciler false none none none true failedDirective)
        sampleRequest 0).calls =
        [Call.FetchWithKey sampleRequest.NamespacedName false none (sampleApp false [])] ∧
      (Reconcile (sampleReconciler false none none none true failedDirective)
        sampleRequest 0).world = 1 :=
  Reconcile_not_found (sampleReconciler false none none none true failedDirective)
    sampleRequest 0 1 (sampleApp false []) rfl

/-- C5: an error `e` returned by the fetch, by the resource synchronizer or by the build
trigger, when that call is reached, ends the invocation.  `Reconcile` returns the empty
result together with `e`; the calls it has made are those up to the failing one, and
the cluster state it leaves is the one the failing collaborator returned, so that no
later collaborator has run. -/
theorem Reconcile_early_error {σ : Type} (r : ReconcileKogitoApp σ) (request : Request)
    (w : σ) (e : Error) :
    (∀ (found : Bool) (fetched : KogitoApp) (w1 : σ),
        r.FetchWithKey request.NamespacedName KogitoApp.zero w =
          ((found, some e, fetched), w1) →
        Reconcile r request w =
          { result := Result.empty, err := some e,
            calls := [Call.FetchWithKey request.NamespacedName found (some e) fetched],
            world := w1 }) ∧
      (∀ (fetched left : KogitoApp) (res : KogitoAppResources) (w1 w2 : σ),
        r.FetchWithKey request.NamespacedName KogitoApp.zero w =
          ((true, none, fetched), w1) →
        r.BuildOrFetchObjects (Reconcile.context r (setDefaultBuildLimits r.defaults (normalizeRuntime fetched))) w1 = ((res, some e, left), w2) →
        Reconcile r request w =
          { result := Result.empty, err := some e,
            calls := [Call.FetchWithKey request.NamespacedName true none fetched,
              Call.BuildOrFetchObjects
              (setDefaultBuildLimits r.defaults (normalizeRuntime fetched)) res (some e) left],
            world := w2 }) ∧
      (∀ (fetched left : KogitoApp) (res : KogitoAppResources) (w1 w2 w3 : σ),
        r.FetchWithKey request.NamespacedName KogitoApp.zero w =
          ((true, none, fetched), w1) →
        r.BuildOrFetchObjects (Reconcile.context r (setDefaultBuildLimits r.defaults (normalizeRuntime fetched))) w1 = ((res, none, left), w2) →
        res.BuildConfigS2IStatus.IsNew = true →
        r.TriggerBuild res.BuildConfigS2I left.Name w2 = (some e, w3) →
        Reconcile r request w =
          { result := Result.empty, err := some e,
            calls := [Call.FetchWithKey request.NamespacedName true none fetched,
              Call.BuildOrFetchObjects
              (setDefaultBuildLimits r.defaults (normalizeRuntime fetched)) res none left,
              Call.TriggerBuild res.BuildConfigS2I left.Name (some e)],
            world := w3 }) :=
  ⟨fun found fetched w1 hf => run_fetch_error r request w w1 found e fetched hf,
    fun fetched left res w1 w2 hf hs => run_sync_error r request w w1 w2 e fetched left res hf hs,
    fun fetched left res w1 w2 w3 hf hs hnew ht =>
      run_trigger_error r request w w1 w2 w3 e fetched left res hf hs hnew ht⟩

/-- Witness of C5: the build trigger of the logging reconciler fails with "build failed";
`Reconcile` returns that error, and the cluster has served the fetch, the
synchronization and the trigger, and nothing after. -/
theorem Reconcile_early_error_witness :
    Reconcile (loggingReconciler "" none (some "build failed") true doneDirective)
        sampleRequest [] =
      { result := Result.empty, err := some "build failed",
        calls := [Call.FetchWithKey sampleRequest.NamespacedName true none (loggedFetched ""),
          Call.BuildOrFetchObjects sampleSynced (sampleResources true) none sampleSynced,
          Call.TriggerBuild { Name := "example-builder" } "example" (some "build failed")],
        world := ["fetch example", "synchronize runtime=quarkus",
          "trigger example-builder for example"] } :=
  (Reconcile_early_error (loggingReconciler "" none (some "build failed") true doneDirective)
    sampleRequest [] "build failed").2.2 (loggedFetched "") sampleSynced (sampleResources true)
    ["fetch example"] ["fetch example", "synchronize runtime=quarkus"]
    ["fetch example", "synchronize runtime=quarkus", "trigger example-builder for example"]
    rfl rfl rfl rfl

/-- C4: after the instance is fetched and the synchronization succeeds, the build trigger
runs if and only if the build configuration of the synchronized set is new.  When it is
new, `TriggerBuild` is applied once, to that build configuration and the name of the
instance, on the cluster state the synchronizer returned; its answer decides the rest
(an error ends the invocation, otherwise resource and status reconciliation run on the
state the trigger returned).  When it is not new, `TriggerBuild` is not applied:
resource and status reconciliation run directly on the state the synchronizer
returned. -/
theorem Reconcile_trigger_gating {σ : Type} (r : ReconcileKogitoApp σ) (request : Request)
    (w w1 w2 : σ) (fetched left : KogitoApp) (res : KogitoAppResources)
    (hf : r.FetchWithKey request.NamespacedName KogitoApp.zero w =
      ((true, none, fetched), w1))
    (hs : r.BuildOrFetchObjects (Reconcile.context r (setDefaultBuildLimits r.defaults (normalizeRuntime fetched))) w1 = ((res, none, left), w2)) :
    ((∃ c ∈ (Reconcile r request w).calls, c.isTriggerBuild = true) ↔
        res.BuildConfigS2IStatus.IsNew = true) ∧
      (res.BuildConfigS2IStatus.IsNew = true →
        ∀ (terr : Option Error) (w3 : σ),
          r.TriggerBuild res.BuildConfigS2I left.Name w2 = (terr, w3) →
          (Reconcile r request w).calls.filter Call.isTriggerBuild =
              [Call.TriggerBuild res.BuildConfigS2I left.Name terr] ∧
            (∀ e, terr = some e →
              Reconcile r request w =
                { result := Result.empty, err := some e,
                  calls := [Call.FetchWithKey request.NamespacedName true none fetched,
                    Call.BuildOrFetchObjects
                      (setDefaultBuildLimits r.defaults (normalizeRuntime fetched)) res none left,
                    Call.TriggerBuild res.BuildConfigS2I left.Name (some e)],
                  world := w3 }) ∧
            (terr = none →
              ∀ (upd : Option UpdateResourcesResult) (app1 : KogitoApp) (w4 : σ)
                (sr : UpdateResult) (w5 : σ),
                r.ManageResources left res w3 = ((upd, app1), w4) →
                r.ManageStatus app1 res upd request.NamespacedName w4 = (sr, w5) →
                (Reconcile r request w).calls =
                    [Call.FetchWithKey request.NamespacedName true none fetched,
                     Call.BuildOrFetchObjects
                       (setDefaultBuildLimits r.defaults (normalizeRuntime fetched)) res none left,
                     Call.TriggerBuild res.BuildConfigS2I left.Name none,
                     Call.ManageResources left res upd,
                     Call.ManageStatus app1 res upd request.NamespacedName sr] ∧
                  (Reconcile r request w).world = w5)) ∧
      (res.BuildConfigS2IStatus.IsNew = false →
        ∀ (upd : Option UpdateResourcesResult) (app1 : KogitoApp) (w4 : σ)
          (sr : UpdateResult) (w5 : σ),
          r.ManageResources left res w2 = ((upd, app1), w4) →
          r.ManageStatus app1 res upd request.NamespacedName w4 = (sr, w5) →
          (Reconcile r request w).calls.filter Call.isTriggerBuild = [] ∧
            (Reconcile r request w).calls =
              [Call.FetchWithKey request.NamespacedName true none fetched,
               Call.BuildOrFetchObjects
                 (setDefaultBuildLimits r.defaults (normalizeRuntime fetched)) res none left,
               Call.ManageResources left res upd,
               Call.ManageStatus app1 res upd request.NamespacedName sr] ∧
            (Reconcile r request w).world = w5) := by
  refine ⟨?_, ?_, ?_⟩
  · cases hnew : res.BuildConfigS2IStatus.IsNew
    · rw [run_untriggered r request w w1 w2 fetched left res hf hs hnew, manage_calls]
      simp [manageCalls, Call.isTriggerBuild]
    · rcases ht : r.TriggerBuild res.BuildConfigS2I left.Name w2 with ⟨terr, w3⟩
      cases terr with
      | none =>
        rw [run_triggered r request w w1 w2 w3 fetched left res hf hs hnew ht, manage_calls]
        simp [manageCalls, Call.isTriggerBuild]
      | some e =>
        rw [run_trigger_error r request w w1 w2 w3 e fetched left res hf hs hnew ht]
        simp [Call.isTriggerBuild]
  · intro hnew terr w3 ht
    cases terr with
    | none =>
      have hrun := run_triggered r request w w1 w2 w3 fetched left res hf hs hnew ht
      refine ⟨?_, ?_, ?_⟩
      · rw [hrun, manage_calls]
        simp [manageCalls, Call.isTriggerBuild, List.filter]
      · intro e he
        exact absurd he (by simp)
      · intro _ upd app1 w4 sr w5 hm hst
        rw [hrun]
        exact manage_run r request left app1 res none _ w3 w4 w5 upd sr hm hst
    | some e0 =>
      have hrun := run_trigger_error r request w w1 w2 w3 e0 fetched left res hf hs hnew ht
      refine ⟨?_, ?_, ?_⟩
      · rw [hrun]
        simp [Call.isTriggerBuild, List.filter]
      · intro e he
        rw [hrun]
        cases he
        rfl
      · intro he
        exact absurd he (by simp)
  · intro hnew upd app1 w4 sr w5 hm hst
    have hrun := run_untriggered r request w w1 w2 fetched left res hf hs hnew
    have hm2 := manage_run r request left app1 res none
      [Call.FetchWithKey request.NamespacedName true none fetched,
       Call.BuildOrFetchObjects
         (setDefaultBuildLimits r.defaults (normalizeRuntime fetched)) res none left] w2 w4 w5 upd sr hm hst
    rw [hrun]
    refine ⟨?_, hm2.1, hm2.2⟩
    rw [hm2.1]
    simp [Call.isTriggerBuild, List.filter]

/-- Witness of C4: with a new build configuration the cluster of the logging reconciler
serves exactly one trigger, for "example-builder" and the instance "example", between
the synchronization and the resource reconciliation. -/
theorem Reconcile_trigger_gating_witness :
    (Reconcile (loggingReconciler "" none none true doneDirective) sampleRequest []).calls =
        [Call.FetchWithKey sampleRequest.NamespacedName true none (loggedFetched ""),
         Call.BuildOrFetchObjects sampleSynced (sampleResources true) none sampleSynced,
         Call.TriggerBuild { Name := "example-builder" } "example" none,
         Call.ManageResources sampleSynced (sampleResources true) none,
         Call.ManageStatus sampleSynced (sampleResources true) none
           sampleRequest.NamespacedName doneDirective] ∧
      (Reconcile (loggingReconciler "" none none true doneDirective) sampleRequest []).world =
        ["fetch example", "synchronize runtime=quarkus",
         "trigger example-builder for example", "resources", "status"] :=
  ((Reconcile_trigger_gating (loggingReconciler "" none none true doneDirective)
    sampleRequest [] ["fetch example"] ["fetch example", "synchronize runtime=quarkus"]
    (loggedFetched "") sampleSynced (sampleResources true) rfl rfl).2.1 rfl none
    ["fetch example", "synchronize runtime=quarkus", "trigger example-builder for example"]
    rfl).2.2 rfl none sampleSynced
    ["fetch example", "synchronize runtime=quarkus", "trigger example-builder for example",
      "resources"]
    doneDirective
    ["fetch example", "synchronize runtime=quarkus", "trigger example-builder for example",
      "resources", "status"]
    rfl rfl

/-- C9: once the instance is fetched, the context `Reconcile` hands to the resource
synchronizer carries the runtime kind Springboot exactly when the fetched instance said
Springboot, and Quarkus for every other fetched value (empty, Quarkus, or any other
string).  The step cannot fail: the synchronizer is always applied to that context, on
the cluster state the fetch returned, and whatever it answers there decides the rest of
the invocation. -/
theorem Reconcile_runtime_normalized {σ : Type} (r : ReconcileKogitoApp σ) (request : Request)
    (w w1 : σ) (fetched : KogitoApp)
    (hf : r.FetchWithKey request.NamespacedName KogitoApp.zero w =
      ((true, none, fetched), w1)) :
    ((Reconcile.context r (setDefaultBuildLimits r.defaults (normalizeRuntime fetched))).KogitoApp.Spec.Runtime = SpringbootRuntimeType ↔
        fetched.Spec.Runtime = SpringbootRuntimeType) ∧
      (fetched.Spec.Runtime ≠ SpringbootRuntimeType →
        (Reconcile.context r (setDefaultBuildLimits r.defaults (normalizeRuntime fetched))).KogitoApp.Spec.Runtime = QuarkusRuntimeType) ∧
      ∀ (res : KogitoAppResources) (serr : Option Error) (left : KogitoApp) (w2 : σ),
        r.BuildOrFetchObjects (Reconcile.context r (setDefaultBuildLimits r.defaults (normalizeRuntime fetched))) w1 = ((res, serr, left), w2) →
        (∀ e, serr = some e →
          Reconcile r request w =
            { result := Result.empty, err := some e,
              calls := [Call.FetchWithKey request.NamespacedName true none fetched,
                Call.BuildOrFetchObjects
                  (setDefaultBuildLimits r.defaults (normalizeRuntime fetched)) res (some e) left],
              world := w2 }) ∧
        (serr = none → res.BuildConfigS2IStatus.IsNew = false →
          Reconcile r request w =
            Reconcile.manage r request left res none
              [Call.FetchWithKey request.NamespacedName true none fetched,
               Call.BuildOrFetchObjects
                 (setDefaultBuildLimits r.defaults (normalizeRuntime fetched)) res none left] w2) ∧
        (serr = none → res.BuildConfigS2IStatus.IsNew = true →
          ∀ (terr : Option Error) (w3 : σ),
            r.TriggerBuild res.BuildConfigS2I left.Name w2 = (terr, w3) →
            (∀ e, terr = some e →
              Reconcile r request w =
                { result := Result.empty, err := some e,
                  calls := [Call.FetchWithKey request.NamespacedName true none fetched,
                    Call.BuildOrFetchObjects
                      (setDefaultBuildLimits r.defaults (normalizeRuntime fetched)) res none left,
                    Call.TriggerBuild res.BuildConfigS2I left.Name (some e)],
                  world := w3 }) ∧
            (terr = none →
              Reconcile r request w =
                Reconcile.manage r request left res none
                  [Call.FetchWithKey request.NamespacedName true none fetched,
                   Call.BuildOrFetchObjects
                     (setDefaultBuildLimits r.defaults (normalizeRuntime fetched)) res none left,
                   Call.TriggerBuild res.BuildConfigS2I left.Name none] w3)) := by
  have hrt : (Reconcile.context r (setDefaultBuildLimits r.defaults (normalizeRuntime fetched))).KogitoApp.Spec.Runtime = (normalizeRuntime fetched).Spec.Runtime :=
    setDefaultBuildLimits_Runtime r.defaults (normalizeRuntime fetched)
  refine ⟨?_, ?_, ?_⟩
  · rw [hrt]
    exact (normalizeRuntime_Runtime fetched).1
  · rw [hrt]
    exact (normalizeRuntime_Runtime fetched).2
  · intro res serr left w2 hs
    refine ⟨?_, ?_, ?_⟩
    · intro e he
      subst he
      exact run_sync_error r request w w1 w2 e fetched left res hf hs
    · intro he hnew
      subst he
      exact run_untriggered r request w w1 w2 fetched left res hf hs hnew
    · intro he hnew terr w3 ht
      subst he
      refine ⟨?_, ?_⟩
      · intro e hte
        subst hte
        exact run_trigger_error r request w w1 w2 w3 e fetched left res hf hs hnew ht
      · intro hte
        subst hte
        exact run_triggered r request w w1 w2 w3 fetched left res hf hs hnew ht

/-- Witness of C9: the logging reconciler fetches an instance whose runtime kind is "foo"
and its synchronizer refuses; the cluster state shows that the synchronizer was handed
the runtime kind quarkus. -/
theorem Reconcile_runtime_normalized_witness :
    Reconcile (loggingReconciler "foo" (some "sync failed") none false doneDirective)
        sampleRequest [] =
      { result := Result.empty, err := some "sync failed",
        calls := [Call.FetchWithKey sampleRequest.NamespacedName true none (loggedFetched "foo"),
          Call.BuildOrFetchObjects sampleSynced (sampleResources false) (some "sync failed")
            sampleSynced],
        world := ["fetch example", "synchronize runtime=quarkus"] } :=
  ((Reconcile_runtime_normalized
    (loggingReconciler "foo" (some "sync failed") none false doneDirective)
    sampleRequest [] ["fetch example"] (loggedFetched "foo") rfl).2.2
    (sampleResources false) (some "sync failed") sampleSynced
    ["fetch example", "synchronize runtime=quarkus"] rfl).1 "sync failed" rfl

end Kogito
